import Mathlib

/-
Verification development for the CourseHub server (Express + MongoDB backend).

The repository ships two variants of the enrollment admission controller.  The
fuller server listing (embedded in the repository README) carries the complete
check-and-compensate protocol together with the role middleware, course update
with protected-key stripping, and the course-deletion cascade; the design notes
declare the simpler listing in index.js superseded.  This file embeds the fuller
listing as the program, and additionally embeds the seat-adjustment route
PATCH /courses/:id/seats, which exists only in index.js and has no counterpart
in the fuller listing.

Embedding conventions:
  - MongoDB collections are association lists keyed by document id; findOne
    returns the first match, updateOne with an id filter updates the entries
    holding that id, deleteOne removes the first match, deleteMany filters.
  - The course id string is validated with ObjectId.isValid, modelled as the
    standard 24-hexadecimal-character form.
  - JavaScript numbers on the modelled fields are integers (Int); no claim
    concerns fractional or floating-point behaviour.  Timestamp fields
    (createdAt is kept abstract as a Nat, updatedAt/enrolledAt are omitted)
    play no role in any claim.
  - Handlers behind the verifyJWT middleware receive the verified caller email
    as an argument; the role middleware getUserRole is embedded both as a
    standalone function over the collaborator lookup result (for the role
    resolution claims) and as the db-backed roleOf used by the gated routes.
  - The speculative-insert / conditional-claim / compensate sequence of the
    enroll route is isolated in atomicReserve, which takes the store state at
    reservation time, so that interference between the capacity pre-check and
    the conditional update is expressible.
-/

deriving instance DecidableEq for Except

namespace CourseHub

/-- One hexadecimal character, as accepted inside a MongoDB ObjectId string. -/
def isHexDigit (ch : Char) : Bool :=
  ch.isDigit || (decide (ch ≥ 'a') && decide (ch ≤ 'f')) || (decide (ch ≥ 'A') && decide (ch ≤ 'F'))

/-- ObjectId.isValid on a string: exactly 24 hexadecimal characters. -/
def isValidObjectId (s : String) : Bool :=
  s.length == 24 && s.data.all isHexDigit

/-- A stored user record; only the role field matters to the embedded routes. -/
structure User where
  role : Option String
  deriving DecidableEq

/-- A stored course document (fields relevant to the claims). -/
structure Course where
  courseTitle : String
  description : String
  instructorEmail : String
  seats : Int
  price : Int
  enrollmentCount : Int
  status : Option String
  createdAt : Nat
  deriving DecidableEq

/-- A stored enrollment record; eid models the Mongo-assigned insertion id. -/
structure Enrollment where
  eid : Nat
  userEmail : String
  courseId : String
  courseTitle : String
  deriving DecidableEq

/-- A stored review record (fields relevant to the deletion cascade). -/
structure Review where
  userEmail : String
  courseObjectId : String
  deriving DecidableEq

/-- The shared store: the four collections plus a fresh-id counter for
enrollment inserts. -/
structure DB where
  users : List (String × User)
  courses : List (String × Course)
  enrollments : List Enrollment
  reviews : List Review
  nextId : Nat
  deriving DecidableEq

/-- usersCollection.findOne on the email key. -/
def findUser : List (String × User) → String → Option User
  | [], _ => none
  | (k, u) :: rest, e => if k = e then some u else findUser rest e

/-- coursesCollection.findOne on the id key. -/
def findCourse : List (String × Course) → String → Option Course
  | [], _ => none
  | (k, c) :: rest, i => if k = i then some c else findCourse rest i

/-- enrollmentsCollection.findOne on the (userEmail, courseId) filter. -/
def findEnrollment : List Enrollment → String → String → Option Enrollment
  | [], _, _ => none
  | e :: rest, u, c =>
    if e.userEmail = u ∧ e.courseId = c then some e else findEnrollment rest u c

/-- enrollmentsCollection.countDocuments on the userEmail filter. -/
def countByUser (l : List Enrollment) (u : String) : Nat :=
  (l.filter (fun e => e.userEmail == u)).length

/-- coursesCollection.updateOne on the id filter: rewrite the stored course
at the filtered id, leaving every other document untouched. -/
def mapUpdate : List (String × Course) → String → (Course → Course) → List (String × Course)
  | [], _, _ => []
  | (k, c) :: rest, cid, f =>
    if k = cid then (k, f c) :: mapUpdate rest cid f
    else (k, c) :: mapUpdate rest cid f

/-- coursesCollection.deleteOne on the id filter; none when no document
matched (deletedCount zero). -/
def removeCourse : List (String × Course) → String → Option (List (String × Course))
  | [], _ => none
  | (k, c) :: rest, cid =>
    if k = cid then some rest
    else (removeCourse rest cid).map (fun l => (k, c) :: l)

/-- enrollmentsCollection.deleteOne on the (userEmail, courseId) filter;
none when no document matched. -/
def eraseEnrollmentPair : List Enrollment → String → String → Option (List Enrollment)
  | [], _, _ => none
  | e :: rest, u, c =>
    if e.userEmail = u ∧ e.courseId = c then some rest
    else (eraseEnrollmentPair rest u c).map (fun l => e :: l)

/-- enrollmentsCollection.deleteOne on the _id filter. -/
def eraseEnrollmentId : List Enrollment → Nat → List Enrollment
  | [], _ => []
  | e :: rest, i => if e.eid = i then rest else e :: eraseEnrollmentId rest i

/-- JavaScript string-falsiness default: x || d, for an optional string. -/
def strOrDefault : Option String → String → String
  | none, d => d
  | some s, d => if s = "" then d else s

/-- JavaScript truthiness of an optional request-body string field. -/
def strPresent : Option String → Bool
  | none => false
  | some s => !(s == "")

/-- The role the getUserRole middleware attaches for a verified email, read
fresh from the user store: the stored role, defaulting to student when the
record or its role field is absent. -/
def roleOf (db : DB) (email : String) : String :=
  strOrDefault ((findUser db.users email).bind (fun u => u.role)) "student"

/-- Outcome of the role middleware: proceed with a role, or fail the request. -/
inductive RoleOutcome
  | ok (role : String)
  | unauthorized
  | serverError
  deriving DecidableEq

/-- The getUserRole middleware over the collaborator lookup result: missing
email in the token is Unauthorized, a storage failure is ServerError, and
otherwise the request proceeds with the stored role or the student default. -/
def getUserRole (decodedEmail : Option String) (lookup : Except Unit (Option User)) :
    RoleOutcome :=
  match decodedEmail with
  | none => RoleOutcome.unauthorized
  | some _ =>
    match lookup with
    | Except.error _ => RoleOutcome.serverError
    | Except.ok u => RoleOutcome.ok (strOrDefault (u.bind (fun x => x.role)) "student")

/-- Credential situation seen by the best-effort identity middleware. -/
inductive AuthN
  | noToken
  | badToken
  | okToken (email : String)

/-- The getRoleIfAuthenticated middleware: no valid credential yields the
guest role and the request proceeds; a verified email is resolved like
getUserRole, except that a disconnected store or a storage failure also
degrades to guest instead of failing. -/
def getRoleIfAuthenticated (a : AuthN) (dbConnected : Bool)
    (lookup : Except Unit (Option User)) : RoleOutcome :=
  match a with
  | AuthN.noToken => RoleOutcome.ok ("guest")
  | AuthN.badToken => RoleOutcome.ok ("guest")
  | AuthN.okToken _ =>
    if !dbConnected then RoleOutcome.ok ("guest")
    else
      match lookup with
      | Except.error _ => RoleOutcome.ok ("guest")
      | Except.ok u => RoleOutcome.ok (strOrDefault (u.bind (fun x => x.role)) "student")

/-- Error kinds surfaced by the enroll route. -/
inductive EnrollErr
  | invalidInput
  | forbidden
  | alreadyEnrolled
  | quotaExceeded
  | notFound
  | courseNotApproved
  | noSeatsAvailable
  | seatConflict
  deriving DecidableEq

/-- Whether the conditional update filter (id AND seats greater than zero)
matches a document; when it matches, the increment always modifies it, so
this is also whether modifiedCount is one rather than zero. -/
def condSeatMatched (courses : List (String × Course)) (cid : String) : Bool :=
  match findCourse courses cid with
  | some c => decide (0 < c.seats)
  | none => false

/-- The seat-claiming update applied by the conditional write: decrement
seats and increment enrollmentCount in the same update. -/
def claimSeat (c : Course) : Course :=
  { c with seats := c.seats - 1, enrollmentCount := c.enrollmentCount + 1 }

/-- The capacity-release update applied by unenroll: increment seats and
decrement enrollmentCount in the same update. -/
def freeSeat (c : Course) : Course :=
  { c with seats := c.seats + 1, enrollmentCount := c.enrollmentCount - 1 }

/-- The atomic reservation step of the enroll route, taken against the store
state at reservation time: speculatively insert the enrollment record, then
perform the conditional update matching the course id AND seats greater than
zero, decrementing seats and incrementing enrollmentCount together; if the
conditional update modified no document, delete the inserted record and fail
with seatConflict, else succeed with the new enrollment id. -/
def atomicReserve (db : DB) (u cid title : String) : Except EnrollErr Nat × DB :=
  let eid := db.nextId
  let inserted : DB :=
    { db with
      enrollments :=
        db.enrollments ++ [{ eid := eid, userEmail := u, courseId := cid, courseTitle := title }],
      nextId := eid + 1 }
  if condSeatMatched inserted.courses cid then
    (Except.ok eid, { inserted with courses := mapUpdate inserted.courses cid claimSeat })
  else
    (Except.error EnrollErr.seatConflict,
      { inserted with enrollments := eraseEnrollmentId inserted.enrollments eid })

/-- The status gate of the enroll route: hasStatus and status not approved. -/
def statusBlocksEnroll : Option String → Bool
  | none => false
  | some s => !(s == "approved")

/-- The enroll route (POST /enrollments) behind verifyJWT, in the order the
handler performs its checks: field presence, identity match, course id
validity, duplicate enrollment, the three-enrollment quota, course existence,
approval status, the seat pre-check, and finally the atomic reservation. -/
def enroll (db : DB) (caller : String)
    (userEmail courseId courseTitle : Option String) : Except EnrollErr Nat × DB :=
  if !(strPresent userEmail && strPresent courseId && strPresent courseTitle) then
    (Except.error EnrollErr.invalidInput, db)
  else if caller ≠ userEmail.getD ("") then (Except.error EnrollErr.forbidden, db)
  else if !(isValidObjectId (courseId.getD (""))) then (Except.error EnrollErr.invalidInput, db)
  else
    match findEnrollment db.enrollments (userEmail.getD ("")) (courseId.getD ("")) with
    | some _ => (Except.error EnrollErr.alreadyEnrolled, db)
    | none =>
      if 3 ≤ countByUser db.enrollments (userEmail.getD ("")) then
        (Except.error EnrollErr.quotaExceeded, db)
      else
        match findCourse db.courses (courseId.getD ("")) with
        | none => (Except.error EnrollErr.notFound, db)
        | some c =>
          if statusBlocksEnroll c.status then (Except.error EnrollErr.courseNotApproved, db)
          else if c.seats ≤ 0 then (Except.error EnrollErr.noSeatsAvailable, db)
          else atomicReserve db (userEmail.getD ("")) (courseId.getD ("")) (courseTitle.getD (""))

/-- Result kinds shared by the remaining embedded routes. -/
inductive OpResult
  | ok
  | invalidInput
  | forbidden
  | notFound
  | serverError
  deriving DecidableEq

/-- The unenroll route (DELETE /enrollments/:email/:courseId) behind
verifyJWT: identity match, course id validity, delete the enrollment record
(NotFound when none matched), then release capacity on the course as a
best-effort update that is a no-op when the course is gone. -/
def unenroll (db : DB) (caller email courseId : String) : OpResult × DB :=
  if caller ≠ email then (OpResult.forbidden, db)
  else if !(isValidObjectId courseId) then (OpResult.invalidInput, db)
  else
    match eraseEnrollmentPair db.enrollments email courseId with
    | none => (OpResult.notFound, db)
    | some remaining =>
      (OpResult.ok,
        { db with enrollments := remaining, courses := mapUpdate db.courses courseId freeSeat })

/-- The request body of the course-update route, one optional slot per
modelled key.  The raw numeric fields carry the result of parseInt or
parseFloat: the inner none is NaN. -/
structure CourseUpdateBody where
  bodyId : Option String
  bodyInstructorEmail : Option String
  bodyCreatedAt : Option Nat
  bodyEnrollmentCount : Option Int
  bodyStatus : Option String
  bodySeats : Option (Option Int)
  bodyPrice : Option (Option Int)
  bodyCourseTitle : Option String
  bodyDescription : Option String
  deriving DecidableEq

/-- Validation of an optional numeric update field: absent is fine, NaN or a
negative value is rejected. -/
def parsedNonNeg : Option (Option Int) → Except Unit (Option Int)
  | none => Except.ok none
  | some none => Except.error ()
  | some (some n) => if n < 0 then Except.error () else Except.ok (some n)

/-- The set applied by the course-update route after the protected keys
(_id, instructorEmail, createdAt, enrollmentCount, status, averageRating,
reviewCount) have been deleted from the payload: only the surviving keys are
written onto the stored course. -/
def applyCourseUpdate (body : CourseUpdateBody) (seatsVal priceVal : Option Int)
    (c : Course) : Course :=
  { c with
    seats := seatsVal.getD c.seats,
    price := priceVal.getD c.price,
    courseTitle := body.bodyCourseTitle.getD c.courseTitle,
    description := body.bodyDescription.getD c.description }

/-- The course-update route (PUT /course/:id) behind verifyJWT, getUserRole
and verifyInstructor: role gate, id validity, existence, ownership for
instructors, payload stripping of protected keys, seats and price validation,
then the set.  The two successful responses (updated, no changes) are both
ok here. -/
def updateCourse (db : DB) (caller : String) (id : String) (body : CourseUpdateBody) :
    OpResult × DB :=
  if roleOf db caller ≠ "instructor" ∧ roleOf db caller ≠ "admin" then (OpResult.forbidden, db)
  else if !(isValidObjectId id) then (OpResult.invalidInput, db)
  else
    match findCourse db.courses id with
    | none => (OpResult.notFound, db)
    | some c =>
      if roleOf db caller = "instructor" ∧ c.instructorEmail ≠ caller then (OpResult.forbidden, db)
      else
        match parsedNonNeg body.bodySeats with
        | Except.error _ => (OpResult.invalidInput, db)
        | Except.ok seatsVal =>
          match parsedNonNeg body.bodyPrice with
          | Except.error _ => (OpResult.invalidInput, db)
          | Except.ok priceVal =>
            (OpResult.ok,
              { db with courses := mapUpdate db.courses id (applyCourseUpdate body seatsVal priceVal) })

/-- The course-deletion route (DELETE /courses/:id) behind verifyJWT,
getUserRole and verifyInstructor: role gate, id validity, existence,
ownership for instructors, then delete the course and cascade-delete its
enrollments (by courseId string) and its reviews (by course object id). -/
def deleteCourse (db : DB) (caller : String) (id : String) : OpResult × DB :=
  if roleOf db caller ≠ "instructor" ∧ roleOf db caller ≠ "admin" then (OpResult.forbidden, db)
  else if !(isValidObjectId id) then (OpResult.invalidInput, db)
  else
    match findCourse db.courses id with
    | none => (OpResult.notFound, db)
    | some c =>
      if roleOf db caller = "instructor" ∧ c.instructorEmail ≠ caller then (OpResult.forbidden, db)
      else
        match removeCourse db.courses id with
        | none => (OpResult.notFound, db)
        | some remaining =>
          (OpResult.ok,
            { db with
              courses := remaining,
              enrollments := db.enrollments.filter (fun e => !(e.courseId == id)),
              reviews := db.reviews.filter (fun r => !(r.courseObjectId == id)) })

/-- The seat-adjustment route (PATCH /courses/:id/seats) from the superseded
index.js listing, behind verifyJWT only: any numeric increment is applied to
seats with a bare increment and no lower bound; a non-numeric increment is
rejected, a malformed id throws inside the handler (ServerError), a missing
course or a zero increment reports modifiedCount zero (NotFound). -/
def patchSeats (db : DB) (id : String) (increment : Option Int) : OpResult × DB :=
  match increment with
  | none => (OpResult.invalidInput, db)
  | some inc =>
    if !(isValidObjectId id) then (OpResult.serverError, db)
    else
      match findCourse db.courses id with
      | none => (OpResult.notFound, db)
      | some _ =>
        if inc = 0 then (OpResult.notFound, db)
        else
          (OpResult.ok,
            { db with courses := mapUpdate db.courses id (fun c => { c with seats := c.seats + inc }) })

/-- The admin status route (PATCH /admin/courses/:id/status) behind
verifyJWT, getUserRole and verifyAdmin: admin gate, status whitelist, id
validity, existence, then set the status field only. -/
def adminSetStatus (db : DB) (caller : String) (id stat : String) : OpResult × DB :=
  if roleOf db caller ≠ "admin" then (OpResult.forbidden, db)
  else if ¬ (stat = "approved" ∨ stat = "rejected" ∨ stat = "pending") then
    (OpResult.invalidInput, db)
  else if !(isValidObjectId id) then (OpResult.invalidInput, db)
  else
    match findCourse db.courses id with
    | none => (OpResult.notFound, db)
    | some _ =>
      (OpResult.ok, { db with courses := mapUpdate db.courses id (fun c => { c with status := some stat }) })

/-- One admission-controller request: an enroll or an unenroll attempt. -/
inductive AdmOp
  | enrollReq (caller : String) (userEmail courseId courseTitle : Option String)
  | unenrollReq (caller email courseId : String)

/-- The store state after one admission request, successful or failed. -/
def applyAdmOp (db : DB) : AdmOp → DB
  | AdmOp.enrollReq caller ue cid ct => (enroll db caller ue cid ct).2
  | AdmOp.unenrollReq caller e cid => (unenroll db caller e cid).2

/-- The store state after a finite sequence of admission requests. -/
def runAdmOps : DB → List AdmOp → DB
  | db, [] => db
  | db, op :: ops => runAdmOps (applyAdmOp db op) ops

/-- The conserved quantity of a course: seats plus enrollmentCount, read off
the stored document when it exists. -/
def courseSum (db : DB) (cid : String) : Option Int :=
  (findCourse db.courses cid).map (fun c => c.seats + c.enrollmentCount)

/-- The enrollmentCount of a stored course, when it exists. -/
def courseCountAt (db : DB) (cid : String) : Option Int :=
  (findCourse db.courses cid).map (fun c => c.enrollmentCount)

/-- The seats of a stored course, when it exists. -/
def courseSeatsAt (db : DB) (cid : String) : Option Int :=
  (findCourse db.courses cid).map (fun c => c.seats)

/-- Freshness of the enrollment-id counter: every stored record's id is below
the counter, as Mongo guarantees for its generated ids. -/
def eidsFresh (db : DB) : Prop :=
  ∀ e ∈ db.enrollments, e.eid < db.nextId

/-- A well-formed sample course id (24 hexadecimal characters). -/
def cidA : String := "aaaaaaaaaaaaaaaaaaaaaaaa"

/-- A second well-formed sample course id. -/
def cidB : String := "bbbbbbbbbbbbbbbbbbbbbbbb"

/-- A sample approved course with three seats and two admitted enrollments. -/
def sampleCourse : Course :=
  { courseTitle := "Algebra", description := "intro", instructorEmail := "ins@x.com",
    seats := 3, price := 10, enrollmentCount := 2, status := some ("approved"), createdAt := 5 }

/-- An update body with every slot empty. -/
def emptyBody : CourseUpdateBody :=
  { bodyId := none, bodyInstructorEmail := none, bodyCreatedAt := none,
    bodyEnrollmentCount := none, bodyStatus := none, bodySeats := none,
    bodyPrice := none, bodyCourseTitle := none, bodyDescription := none }

/-- The empty store. -/
def dbEmpty : DB :=
  { users := [], courses := [], enrollments := [], reviews := [], nextId := 0 }

/-- A legacy course record with no status field at all. -/
def legacyCourse : Course := { sampleCourse with status := none }

/-- A course still pending approval. -/
def pendingCourse : Course := { sampleCourse with status := some ("pending") }

/-- An approved course whose seats ran out. -/
def fullCourse : Course := { sampleCourse with seats := 0 }

/-- A stored instructor user record. -/
def instructorUser : User := { role := some ("instructor") }

/-- A stored admin user record. -/
def adminUser : User := { role := some ("admin") }

/-- A store holding a single full course, for exercising the compensation
path of the atomic reservation. -/
def dbFull : DB := { dbEmpty with courses := [(cidA, fullCourse)], nextId := 7 }

/-- A store holding a single full course with no admissions yet, for the
seat-adjustment route. -/
def dbZeroSeats : DB :=
  { dbEmpty with courses := [(cidA, { sampleCourse with seats := 0, enrollmentCount := 0 })] }

/-- A store where an instructor owns an approved course. -/
def dbOwned : DB :=
  { dbEmpty with
    users := [("ins@x.com", instructorUser)],
    courses := [(cidA, sampleCourse)] }

/-- An update body that only sets seats to ten. -/
def bodySeatsTen : CourseUpdateBody := { emptyBody with bodySeats := some (some 10) }

/-- A store with an instructor, an admin, a course owned by a third party,
and enrollments and a review referencing it. -/
def dbCascade : DB :=
  { dbEmpty with
    users := [("ins@x.com", instructorUser), ("adm@x.com", adminUser)],
    courses := [(cidA, { sampleCourse with instructorEmail := "other@x.com" })],
    enrollments :=
      [{ eid := 0, userEmail := "u@x.com", courseId := cidA, courseTitle := "Algebra" },
       { eid := 1, userEmail := "u@x.com", courseId := cidB, courseTitle := "Basics" }],
    reviews := [{ userEmail := "u@x.com", courseObjectId := cidA }],
    nextId := 2 }

/-- A store with a legacy (status-free) course and a pending course. -/
def dbLegacy : DB :=
  { dbEmpty with courses := [(cidA, legacyCourse), (cidB, pendingCourse)] }

/-- A store with one fresh course and no enrollments, for the conservation
law. -/
def dbConserve : DB :=
  { dbEmpty with courses := [(cidA, { sampleCourse with enrollmentCount := 0 })] }

/-- A sample admission sequence: one successful enroll and one successful
unenroll on the same course. -/
def opsConserve : List AdmOp :=
  [AdmOp.enrollReq ("u@x.com") (some ("u@x.com")) (some cidA) (some ("Algebra")),
   AdmOp.unenrollReq ("u@x.com") "u@x.com" cidA]

/-- An admitted enrollment record for the unenroll scenario. -/
def enrolledRec : Enrollment :=
  { eid := 0, userEmail := "u@x.com", courseId := cidA, courseTitle := "Algebra" }

/-- A store with a course at seats three, enrollmentCount two, and one
matching enrollment record, for the unenroll scenario. -/
def dbUnenroll : DB :=
  { dbEmpty with
    courses := [(cidA, sampleCourse)],
    enrollments := [enrolledRec],
    nextId := 1 }

/-- Reading a course after an id-filtered update: the updated document at the
filtered id, untouched documents elsewhere. -/
theorem findCourse_mapUpdate (l : List (String × Course)) (cid : String)
    (f : Course → Course) (x : String) :
    findCourse (mapUpdate l cid f) x =
      if x = cid then (findCourse l x).map f else findCourse l x := by
  induction l with
  | nil => by_cases hx : x = cid <;> simp [mapUpdate, findCourse, hx]
  | cons p rest ih =>
    obtain ⟨k, c⟩ := p
    by_cases hk : k = cid <;> by_cases hx : k = x
    · have hxc : x = cid := hx ▸ hk
      simp [mapUpdate, findCourse, hk, hx, hxc]
    · have hxc : ¬ x = cid := fun h => hx (hk.trans h.symm)
      have hcx : ¬ cid = x := fun h => hxc h.symm
      simp [mapUpdate, findCourse, hk, hx, hxc, hcx, ih]
    · have hxc : ¬ x = cid := fun h => hk (hx.trans h)
      simp [mapUpdate, findCourse, hk, hx, hxc]
    · simp [mapUpdate, findCourse, hk, hx, ih]

/-- Deleting the just-inserted enrollment record by its id restores the
enrollment list, provided every earlier record has an older id. -/
theorem eraseEnrollmentId_append_fresh (l : List Enrollment) (e : Enrollment)
    (h : ∀ x ∈ l, x.eid ≠ e.eid) :
    eraseEnrollmentId (l ++ [e]) e.eid = l := by
  induction l with
  | nil => simp [eraseEnrollmentId]
  | cons a rest ih =>
    have ha : a.eid ≠ e.eid := h a (by simp)
    have ih2 := ih (fun x hx => h x (by simp [hx]))
    simp [eraseEnrollmentId, ha, ih2]

/-- findEnrollment ignores an appended record for a different pair. -/
theorem findEnrollment_append (l : List Enrollment) (e : Enrollment) (u c : String) :
    findEnrollment (l ++ [e]) u c =
      (findEnrollment l u c).orElse
        (fun _ => if e.userEmail = u ∧ e.courseId = c then some e else none) := by
  induction l with
  | nil => simp [findEnrollment]
  | cons a rest ih =>
    by_cases ha : a.userEmail = u ∧ a.courseId = c
    · simp [findEnrollment, ha]
    · simp [findEnrollment, ha, ih]

/-- An id-filtered update never changes the stored document ids. -/
theorem mapUpdate_keys (l : List (String × Course)) (cid : String) (f : Course → Course) :
    (mapUpdate l cid f).map Prod.fst = l.map Prod.fst := by
  induction l with
  | nil => rfl
  | cons p rest ih =>
    obtain ⟨k, c⟩ := p
    by_cases hk : k = cid <;> simp [mapUpdate, hk, ih]

/-- A document field untouched by the update function is read back unchanged
from every document after an id-filtered update. -/
theorem fieldPreserved_mapUpdate {α : Type} (l : List (String × Course)) (cid : String)
    (f : Course → Course) (g : Course → α) (hf : ∀ c, g (f c) = g c) (x : String) :
    (findCourse (mapUpdate l cid f) x).map g = (findCourse l x).map g := by
  rw [findCourse_mapUpdate]
  by_cases hx : x = cid
  · subst hx
    cases findCourse l x <;> simp [hf]
  · simp [hx]

/-- An id-filtered update against an id that matches no document is a no-op. -/
theorem mapUpdate_of_findCourse_none (l : List (String × Course)) (cid : String)
    (f : Course → Course) (h : findCourse l cid = none) : mapUpdate l cid f = l := by
  induction l with
  | nil => rfl
  | cons p rest ih =>
    obtain ⟨k, c⟩ := p
    by_cases hk : k = cid
    · simp [findCourse, hk] at h
    · simp [findCourse, hk] at h
      simp [mapUpdate, hk, ih h]

/-- deleteOne on the pair filter removes nothing exactly when findOne on the
same filter finds nothing. -/
theorem eraseEnrollmentPair_eq_none_iff (l : List Enrollment) (u c : String) :
    eraseEnrollmentPair l u c = none ↔ findEnrollment l u c = none := by
  induction l with
  | nil => simp [eraseEnrollmentPair, findEnrollment]
  | cons e rest ih =>
    by_cases he : e.userEmail = u ∧ e.courseId = c
    · simp [eraseEnrollmentPair, findEnrollment, he]
    · simp [eraseEnrollmentPair, findEnrollment, he, ih]

/-- findOne misses when the id is not among the stored document ids. -/
theorem findCourse_eq_none_of_not_mem (l : List (String × Course)) (cid : String)
    (h : cid ∉ l.map Prod.fst) : findCourse l cid = none := by
  induction l with
  | nil => rfl
  | cons p rest ih =>
    obtain ⟨k, c⟩ := p
    simp only [List.map_cons, List.mem_cons] at h
    push_neg at h
    have hk : ¬ k = cid := fun hkk => h.1 hkk.symm
    simp [findCourse, hk, ih h.2]

/-- deleteOne on the id filter matches whenever findOne does. -/
theorem removeCourse_isSome_of_find (l : List (String × Course)) (cid : String)
    (c : Course) (h : findCourse l cid = some c) : ∃ l2, removeCourse l cid = some l2 := by
  induction l with
  | nil => simp [findCourse] at h
  | cons p rest ih =>
    obtain ⟨k, c0⟩ := p
    by_cases hk : k = cid
    · exact ⟨rest, by simp [removeCourse, hk]⟩
    · simp [findCourse, hk] at h
      obtain ⟨l2, hl2⟩ := ih h
      exact ⟨(k, c0) :: l2, by simp [removeCourse, hk, hl2]⟩

/-- With unique stored ids, the remainder of deleteOne on the id filter holds
no document with that id. -/
theorem findCourse_removeCourse_self (l : List (String × Course)) (cid : String)
    (l2 : List (String × Course)) (hnodup : (l.map Prod.fst).Nodup)
    (h : removeCourse l cid = some l2) : findCourse l2 cid = none := by
  induction l generalizing l2 with
  | nil => simp [removeCourse] at h
  | cons p rest ih =>
    obtain ⟨k, c⟩ := p
    rw [List.map_cons, List.nodup_cons] at hnodup
    by_cases hk : k = cid
    · subst hk
      simp [removeCourse] at h
      subst h
      exact findCourse_eq_none_of_not_mem _ k hnodup.1
    · simp [removeCourse, hk] at h
      obtain ⟨l3, hl3, hl2⟩ := h
      subst hl2
      simp [findCourse, hk, ih l3 hnodup.2 hl3]

/-- seats plus enrollmentCount is untouched by the atomic reservation step:
the claim update moves one unit between the two fields, the compensation
path leaves the course store alone. -/
theorem courseSum_atomicReserve (db : DB) (u cid title : String) (x : String) :
    courseSum (atomicReserve db u cid title).2 x = courseSum db x := by
  cases h : condSeatMatched db.courses cid with
  | false => simp [courseSum, atomicReserve, h]
  | true =>
    simp [courseSum, atomicReserve, h]
    simpa [courseSum] using fieldPreserved_mapUpdate db.courses cid claimSeat
      (fun c => c.seats + c.enrollmentCount) (fun c => by simp [claimSeat]) x

/-- seats plus enrollmentCount is untouched by every enroll request,
successful or failed. -/
theorem courseSum_enroll (db : DB) (caller : String) (ue cid ct : Option String)
    (x : String) : courseSum (enroll db caller ue cid ct).2 x = courseSum db x := by
  unfold enroll
  repeat' split
  all_goals first
    | rfl
    | exact courseSum_atomicReserve db (ue.getD ("")) (cid.getD ("")) (ct.getD ("")) x

/-- seats plus enrollmentCount is untouched by every unenroll request,
successful or failed: the release update moves one unit back between the
two fields. -/
theorem courseSum_unenroll (db : DB) (caller email cid : String) (x : String) :
    courseSum (unenroll db caller email cid).2 x = courseSum db x := by
  unfold unenroll
  repeat' split
  all_goals first
    | rfl
    | (simp only [courseSum]
       exact fieldPreserved_mapUpdate db.courses cid freeSeat
         (fun c => c.seats + c.enrollmentCount) (fun c => by simp [freeSeat]) x)

/-- seats plus enrollmentCount is untouched by any single admission request. -/
theorem courseSum_applyAdmOp (db : DB) (op : AdmOp) (x : String) :
    courseSum (applyAdmOp db op) x = courseSum db x := by
  cases op with
  | enrollReq caller ue cid ct => exact courseSum_enroll db caller ue cid ct x
  | unenrollReq caller e cid => exact courseSum_unenroll db caller e cid x

/-- seats plus enrollmentCount is untouched by any finite admission
sequence. -/
theorem courseSum_runAdmOps (db : DB) (ops : List AdmOp) (x : String) :
    courseSum (runAdmOps db ops) x = courseSum db x := by
  induction ops generalizing db with
  | nil => rfl
  | cons op rest ih => rw [runAdmOps, ih, courseSum_applyAdmOp]

/-- Claim C1: for every enroll request that reaches the atomic reservation
step (so the duplicate check has passed: no enrollment record exists for the
pair, and the store-assigned ids are fresh), if the conditional seat-claiming
update — matching the course id AND seats greater than zero, decrementing
seats by one and incrementing enrollmentCount by one in one update — reports
zero documents modified, then the speculatively inserted enrollment record is
deleted and the call fails with SeatConflict, leaving the store with no
enrollment record for the (userEmail, courseId) pair and the courses
untouched; if it reports one document modified, the call succeeds with the
new enrollment id and the course carries the claimed seat. -/
theorem atomic_reservation_compensation (db : DB) (u cid title : String)
    (hfresh : eidsFresh db)
    (hnodup : findEnrollment db.enrollments u cid = none) :
    (condSeatMatched db.courses cid = false →
      atomicReserve db u cid title =
        (Except.error EnrollErr.seatConflict, { db with nextId := db.nextId + 1 }) ∧
      findEnrollment (atomicReserve db u cid title).2.enrollments u cid = none ∧
      (atomicReserve db u cid title).2.courses = db.courses)
  ∧ (condSeatMatched db.courses cid = true →
      (atomicReserve db u cid title).1 = Except.ok db.nextId ∧
      (atomicReserve db u cid title).2.courses = mapUpdate db.courses cid claimSeat ∧
      findEnrollment (atomicReserve db u cid title).2.enrollments u cid =
        some { eid := db.nextId, userEmail := u, courseId := cid, courseTitle := title }) := by
  have herase :
      eraseEnrollmentId
        (db.enrollments ++ [{ eid := db.nextId, userEmail := u, courseId := cid, courseTitle := title }])
        db.nextId = db.enrollments := by
    exact eraseEnrollmentId_append_fresh db.enrollments _ (fun x hx => Nat.ne_of_lt (hfresh x hx))
  constructor
  · intro h
    refine ⟨?_, ?_, ?_⟩
    · simp [atomicReserve, h, herase]
    · simp [atomicReserve, h, herase, hnodup]
    · simp [atomicReserve, h]
  · intro h
    refine ⟨?_, ?_, ?_⟩
    · simp [atomicReserve, h]
    · simp [atomicReserve, h]
    · simp [atomicReserve, h, findEnrollment_append, hnodup, Option.orElse]

/-- Witness for C1: on a store with a single full course (zero seats) and no
enrollments, the atomic reservation fails with SeatConflict and leaves no
enrollment record. -/
theorem atomic_reservation_compensation_witness :
    condSeatMatched dbFull.courses cidA = false ∧
    atomicReserve dbFull ("u@x.com") cidA ("Algebra") =
      (Except.error EnrollErr.seatConflict, { dbFull with nextId := dbFull.nextId + 1 }) ∧
    findEnrollment (atomicReserve dbFull ("u@x.com") cidA ("Algebra")).2.enrollments
      "u@x.com" cidA = none := by
  have h := (atomic_reservation_compensation dbFull ("u@x.com") cidA ("Algebra")
    (by intro e he; simp [dbFull, dbEmpty] at he) (by decide)).1 (by decide)
  exact ⟨by decide, h.1, h.2.1⟩

/-- Counterexample to Claim C2 as stated: on a request whose three fields
are all present, whose caller email differs from userEmail and whose
courseId is malformed, the handler checks the identity match before the
courseId well-formedness, so the call fails with Forbidden, not with the
InvalidInput that check (1) of the claim would give. -/
theorem enroll_identity_checked_before_id_validity :
    strPresent (some ("b@x.com")) = true ∧ strPresent (some ("zz")) = true ∧
    strPresent (some ("Algebra")) = true ∧
    isValidObjectId ("zz") = false ∧
    (enroll dbEmpty ("a@x.com") (some ("b@x.com")) (some ("zz")) (some ("Algebra"))).1 =
      Except.error EnrollErr.forbidden ∧
    (enroll dbEmpty ("a@x.com") (some ("b@x.com")) (some ("zz")) (some ("Algebra"))).1 ≠
      Except.error EnrollErr.invalidInput := by
  refine ⟨by decide, by decide, by decide, by decide, by decide, by decide⟩

/-- Claim C2, amended to the order the handler actually uses: the admission
checks run in the fixed order (1a) all three fields present else
InvalidInput; (2) caller's verified email equals userEmail else Forbidden;
(1b) courseId well-formed else InvalidInput; (3) no existing enrollment for
the pair else AlreadyEnrolled; (4) caller's live enrollment count below
three else QuotaExceeded; (5) course exists else NotFound; (6) course status
approved or absent else CourseNotApproved; (7) seats positive else
NoSeatsAvailable; the first failing check determines the result with no
state mutated before the speculative insert, and only then is the atomic
reservation attempted. -/
theorem enroll_admission_check_order (db : DB) (caller : String)
    (ue cid ct : Option String) :
    ((strPresent ue && strPresent cid && strPresent ct) = false →
      enroll db caller ue cid ct = (Except.error EnrollErr.invalidInput, db))
  ∧ ((strPresent ue && strPresent cid && strPresent ct) = true →
      (caller ≠ ue.getD ("") →
        enroll db caller ue cid ct = (Except.error EnrollErr.forbidden, db))
    ∧ (caller = ue.getD ("") →
        (isValidObjectId (cid.getD ("")) = false →
          enroll db caller ue cid ct = (Except.error EnrollErr.invalidInput, db))
      ∧ (isValidObjectId (cid.getD ("")) = true →
          ((∃ e, findEnrollment db.enrollments (ue.getD ("")) (cid.getD ("")) = some e) →
            enroll db caller ue cid ct = (Except.error EnrollErr.alreadyEnrolled, db))
        ∧ (findEnrollment db.enrollments (ue.getD ("")) (cid.getD ("")) = none →
            (3 ≤ countByUser db.enrollments (ue.getD ("")) →
              enroll db caller ue cid ct = (Except.error EnrollErr.quotaExceeded, db))
          ∧ (countByUser db.enrollments (ue.getD ("")) < 3 →
              (findCourse db.courses (cid.getD ("")) = none →
                enroll db caller ue cid ct = (Except.error EnrollErr.notFound, db))
            ∧ (∀ c, findCourse db.courses (cid.getD ("")) = some c →
                (statusBlocksEnroll c.status = true →
                  enroll db caller ue cid ct =
                    (Except.error EnrollErr.courseNotApproved, db))
              ∧ (statusBlocksEnroll c.status = false →
                  (c.seats ≤ 0 →
                    enroll db caller ue cid ct =
                      (Except.error EnrollErr.noSeatsAvailable, db))
                ∧ (0 < c.seats →
                    enroll db caller ue cid ct =
                      atomicReserve db (ue.getD ("")) (cid.getD ("")) (ct.getD ("")))))))))) := by
  constructor
  · intro h1
    simp [enroll, h1]
  · intro h1
    constructor
    · intro h2
      simp [enroll, h1, h2]
    · intro h2
      constructor
      · intro h3
        simp [enroll, h1, h2, h3]
      · intro h3
        constructor
        · rintro ⟨e, he⟩
          simp [enroll, h1, h2, h3, he]
        · intro h4
          constructor
          · intro h5
            simp [enroll, h1, h2, h3, h4, h5]
          · intro h5
            have h5x : ¬ 3 ≤ countByUser db.enrollments (ue.getD ("")) := by omega
            constructor
            · intro h6
              simp [enroll, h1, h2, h3, h4, h5x, h6]
            · intro c h6
              constructor
              · intro h7
                simp [enroll, h1, h2, h3, h4, h5x, h6, h7]
              · intro h7
                constructor
                · intro h8
                  simp [enroll, h1, h2, h3, h4, h5x, h6, h7, h8]
                · intro h8
                  have h8x : ¬ c.seats ≤ 0 := by omega
                  simp [enroll, h1, h2, h3, h4, h5x, h6, h7, h8x]

/-- Witness for the amended C2: a matching caller with a malformed courseId
is rejected with InvalidInput at check (1b), leaving the store unchanged. -/
theorem enroll_admission_check_order_witness :
    enroll dbEmpty ("a@x.com") (some ("a@x.com")) (some ("zz")) (some ("Algebra")) =
      (Except.error EnrollErr.invalidInput, dbEmpty) := by
  exact (((enroll_admission_check_order dbEmpty ("a@x.com") (some ("a@x.com")) (some ("zz"))
    (some ("Algebra"))).2 (by decide)).2 (by decide)).1 (by decide)

/-- Claim C3: starting from a course with enrollmentCount zero and seats
equal to initialSeats, after any finite sequence of successful and failed
enroll and unenroll requests the course still satisfies
seats + enrollmentCount = initialSeats: every successful enroll decrements
seats and increments enrollmentCount together, every successful unenroll
increments seats and decrements enrollmentCount together, and every failed
request leaves both untouched. -/
theorem enrollment_conservation_law (db : DB) (cid : String) (c : Course)
    (ops : List AdmOp) (initialSeats : Int)
    (hc : findCourse db.courses cid = some c)
    (h0 : c.enrollmentCount = 0) (hs : c.seats = initialSeats) :
    ∃ cAfter, findCourse (runAdmOps db ops).courses cid = some cAfter ∧
      cAfter.seats + cAfter.enrollmentCount = initialSeats := by
  have key : courseSum (runAdmOps db ops) cid = courseSum db cid :=
    courseSum_runAdmOps db ops cid
  rw [courseSum, courseSum, hc] at key
  cases hfind : findCourse (runAdmOps db ops).courses cid with
  | none => rw [hfind] at key; simp at key
  | some cA =>
    rw [hfind] at key
    simp at key
    exact ⟨cA, rfl, by omega⟩

/-- Witness for C3: one successful enroll followed by one successful
unenroll on a fresh three-seat course lands back on
seats + enrollmentCount = 3. -/
theorem enrollment_conservation_law_witness :
    ∃ cAfter, findCourse (runAdmOps dbConserve opsConserve).courses cidA = some cAfter ∧
      cAfter.seats + cAfter.enrollmentCount = 3 := by
  exact enrollment_conservation_law dbConserve cidA
    { sampleCourse with enrollmentCount := 0 } opsConserve 3 (by decide) (by decide) (by decide)

/-- Claim C4 fails on the code: the seat-adjustment route applies any
numeric increment to seats with no lower bound, so on a course whose seats
already reached zero a decrement request succeeds and drives seats to minus
one, violating the seats-never-negative invariant the spec states; the
route's own comment expects only plus or minus one, yet even minus one
underflows here. -/
theorem patchSeats_breaks_nonnegative_seats :
    courseSeatsAt dbZeroSeats cidA = some 0 ∧
    (patchSeats dbZeroSeats cidA (some (-1))).1 = OpResult.ok ∧
    courseSeatsAt (patchSeats dbZeroSeats cidA (some (-1))).2 cidA = some (-1) ∧
    ∃ c, findCourse (patchSeats dbZeroSeats cidA (some (-1))).2.courses cidA = some c ∧
      c.seats < 0 := by
  refine ⟨by decide, by decide, by decide, ?_⟩
  exact ⟨{ sampleCourse with seats := -1, enrollmentCount := 0 }, by decide, by decide⟩

/-- Counterexample to Claim C5 as stated: the course-update route is a third
writer of the seats field — an owning instructor sending a body with a seats
key changes seats from three to ten without going through either admission
path. -/
theorem courseUpdate_writes_seats_directly :
    (updateCourse dbOwned ("ins@x.com") cidA bodySeatsTen).1 = OpResult.ok ∧
    courseSeatsAt dbOwned cidA = some 3 ∧
    courseSeatsAt (updateCourse dbOwned ("ins@x.com") cidA bodySeatsTen).2 cidA = some 10 := by
  refine ⟨by decide, by decide, by decide⟩

/-- Claim C5, amended: the enrollmentCount field is mutated only through the
two admission-controller paths — the course-update route, the seat-adjustment
route and the admin status route all leave every course's enrollmentCount
unchanged — while the seats field is additionally writable by the
course-update route (to a validated non-negative value) and by the
seat-adjustment route (by an arbitrary numeric increment); the admin status
route writes neither field. -/
theorem enrollmentCount_written_only_by_admission (db : DB) (caller id stat : String)
    (body : CourseUpdateBody) (inc : Option Int) (x : String) :
    courseCountAt (updateCourse db caller id body).2 x = courseCountAt db x ∧
    courseCountAt (patchSeats db id inc).2 x = courseCountAt db x ∧
    courseCountAt (adminSetStatus db caller id stat).2 x = courseCountAt db x ∧
    courseSeatsAt (adminSetStatus db caller id stat).2 x = courseSeatsAt db x := by
  refine ⟨?_, ?_, ?_, ?_⟩
  · unfold updateCourse
    repeat' split
    all_goals first
      | rfl
      | (simp only [courseCountAt]
         exact fieldPreserved_mapUpdate db.courses id _
           (fun c => c.enrollmentCount) (fun c => by simp [applyCourseUpdate]) x)
  · unfold patchSeats
    repeat' split
    all_goals first
      | rfl
      | (simp only [courseCountAt]
         exact fieldPreserved_mapUpdate db.courses id _
           (fun c => c.enrollmentCount) (fun c => by simp) x)
  · unfold adminSetStatus
    repeat' split
    all_goals first
      | rfl
      | (simp only [courseCountAt]
         exact fieldPreserved_mapUpdate db.courses id _
           (fun c => c.enrollmentCount) (fun c => by simp) x)
  · unfold adminSetStatus
    repeat' split
    all_goals first
      | rfl
      | (simp only [courseSeatsAt]
         exact fieldPreserved_mapUpdate db.courses id _
           (fun c => c.seats) (fun c => by simp) x)

/-- Claim C6: on a deletion request for an existing course (well-formed id,
unique stored ids), a caller whose resolved role is instructor and whose
email differs from the course's instructorEmail receives Forbidden with the
store unchanged; a caller whose resolved role is admin succeeds, the course
document is gone, and every enrollment referencing the course id and every
review referencing the course object id is deleted as well, the remaining
enrollments and reviews being exactly the non-referencing ones. -/
theorem deleteCourse_ownership_gate_and_cascade (db : DB) (caller id : String)
    (c : Course) (hid : isValidObjectId id = true)
    (hc : findCourse db.courses id = some c)
    (hnodup : (db.courses.map Prod.fst).Nodup) :
    (roleOf db caller = "instructor" → c.instructorEmail ≠ caller →
      deleteCourse db caller id = (OpResult.forbidden, db))
  ∧ (roleOf db caller = "admin" →
      (deleteCourse db caller id).1 = OpResult.ok ∧
      findCourse (deleteCourse db caller id).2.courses id = none ∧
      (deleteCourse db caller id).2.enrollments =
        db.enrollments.filter (fun e => !(e.courseId == id)) ∧
      (deleteCourse db caller id).2.reviews =
        db.reviews.filter (fun r => !(r.courseObjectId == id)) ∧
      (∀ e ∈ (deleteCourse db caller id).2.enrollments, e.courseId ≠ id) ∧
      (∀ r ∈ (deleteCourse db caller id).2.reviews, r.courseObjectId ≠ id)) := by
  obtain ⟨l2, hl2⟩ := removeCourse_isSome_of_find db.courses id c hc
  constructor
  · intro hrole hown
    simp [deleteCourse, hrole, hid, hc, hown]
  · intro hrole
    have hgate : ¬ (roleOf db caller ≠ "instructor" ∧ roleOf db caller ≠ "admin") := by
      simp [hrole]
    have hinstr : ¬ (roleOf db caller = "instructor" ∧ c.instructorEmail ≠ caller) := by
      simp [hrole]
    refine ⟨?_, ?_, ?_, ?_, ?_, ?_⟩
    · simp [deleteCourse, hgate, hid, hc, hinstr, hl2]
    · simp only [deleteCourse, if_neg hgate, hid, Bool.not_true, hc, if_neg hinstr, hl2]
      simpa using findCourse_removeCourse_self db.courses id l2 hnodup hl2
    · simp [deleteCourse, hgate, hid, hc, hinstr, hl2]
    · simp [deleteCourse, hgate, hid, hc, hinstr, hl2]
    · intro e he
      simp [deleteCourse, hgate, hid, hc, hinstr, hl2] at he
      exact he.2
    · intro r hr
      simp [deleteCourse, hgate, hid, hc, hinstr, hl2] at hr
      exact hr.2

/-- Witness for C6: on the cascade store, the foreign instructor is refused
while the admin deletes the course together with its enrollment and review,
leaving the unrelated enrollment behind. -/
theorem deleteCourse_ownership_gate_and_cascade_witness :
    deleteCourse dbCascade ("ins@x.com") cidA = (OpResult.forbidden, dbCascade) ∧
    (deleteCourse dbCascade ("adm@x.com") cidA).1 = OpResult.ok ∧
    findCourse (deleteCourse dbCascade ("adm@x.com") cidA).2.courses cidA = none ∧
    (deleteCourse dbCascade ("adm@x.com") cidA).2.enrollments =
      [{ eid := 1, userEmail := "u@x.com", courseId := cidB, courseTitle := "Basics" }] ∧
    (deleteCourse dbCascade ("adm@x.com") cidA).2.reviews = [] := by
  have hins := (deleteCourse_ownership_gate_and_cascade dbCascade ("ins@x.com") cidA
    { sampleCourse with instructorEmail := "other@x.com" }
    (by decide) (by decide) (by decide)).1 (by decide) (by decide)
  have hadm := (deleteCourse_ownership_gate_and_cascade dbCascade ("adm@x.com") cidA
    { sampleCourse with instructorEmail := "other@x.com" }
    (by decide) (by decide) (by decide)).2 (by decide)
  exact ⟨hins, hadm.1, hadm.2.1, by decide, by decide⟩

/-- Claim C7: on an enroll request for an existing course where the other
admission checks pass, a course with no status field at all passes the
status gate and the enrollment succeeds whenever seats are positive, while a
course whose status field is present and different from approved is rejected
with CourseNotApproved. -/
theorem legacy_status_treated_as_approved (db : DB) (caller ue cid ct : String)
    (c : Course)
    (hue : ue ≠ "") (hct : ct ≠ "") (hcaller : caller = ue)
    (hid : isValidObjectId cid = true)
    (hdup : findEnrollment db.enrollments ue cid = none)
    (hquota : countByUser db.enrollments ue < 3)
    (hc : findCourse db.courses cid = some c) :
    (c.status = none → 0 < c.seats →
      (enroll db caller (some ue) (some cid) (some ct)).1 = Except.ok db.nextId)
  ∧ (∀ s, c.status = some s → s ≠ "approved" →
      enroll db caller (some ue) (some cid) (some ct) =
        (Except.error EnrollErr.courseNotApproved, db)) := by
  have hcid : cid ≠ "" := by
    intro h
    rw [h] at hid
    simp [isValidObjectId] at hid
  have hpres : (strPresent (some ue) && strPresent (some cid) && strPresent (some ct)) = true := by
    simp [strPresent, hue, hct, hcid]
  have hq : ¬ 3 ≤ countByUser db.enrollments ue := by omega
  constructor
  · intro hst hseats
    have hblock : statusBlocksEnroll c.status = false := by simp [hst, statusBlocksEnroll]
    have hs : ¬ c.seats ≤ 0 := by omega
    have hcond : condSeatMatched db.courses cid = true := by
      simp [condSeatMatched, hc, hseats]
    simp [enroll, hpres, hcaller, hid, hdup, hq, hc, hblock, hs, atomicReserve, hcond]
  · intro s hst hs
    have hblock : statusBlocksEnroll c.status = true := by
      simp [hst, statusBlocksEnroll, hs]
    simp [enroll, hpres, hcaller, hid, hdup, hq, hc, hblock]

/-- Witness for C7: on the legacy store, enrolling in the status-free course
succeeds, and enrolling in the pending course fails with CourseNotApproved. -/
theorem legacy_status_treated_as_approved_witness :
    (enroll dbLegacy ("u@x.com") (some ("u@x.com")) (some cidA) (some ("Algebra"))).1 =
      Except.ok dbLegacy.nextId ∧
    enroll dbLegacy ("u@x.com") (some ("u@x.com")) (some cidB) (some ("Algebra")) =
      (Except.error EnrollErr.courseNotApproved, dbLegacy) := by
  constructor
  · exact (legacy_status_treated_as_approved dbLegacy ("u@x.com") "u@x.com" cidA ("Algebra")
      legacyCourse (by decide) (by decide) rfl (by decide) (by decide) (by decide)
      (by decide)).1 (by decide) (by decide)
  · exact (legacy_status_treated_as_approved dbLegacy ("u@x.com") "u@x.com" cidB ("Algebra")
      pendingCourse (by decide) (by decide) rfl (by decide) (by decide) (by decide)
      (by decide)).2 ("pending") (by decide) (by decide)

/-- Counterexample to Claim C8 as stated: on an unenroll request whose
caller email matches the target email but whose courseId is malformed, no
enrollment record matches, yet the handler rejects the request with
InvalidInput at its courseId validity check before ever consulting the
enrollment store, so the call does not fail with the NotFound the claim
requires. -/
theorem unenroll_malformed_id_not_notfound :
    findEnrollment dbEmpty.enrollments ("u@x.com") "zz" = none ∧
    unenroll dbEmpty ("u@x.com") "u@x.com" "zz" = (OpResult.invalidInput, dbEmpty) ∧
    (unenroll dbEmpty ("u@x.com") "u@x.com" "zz").1 ≠ OpResult.notFound := by
  refine ⟨by decide, by decide, by decide⟩

/-- Claim C8, amended: for every unenroll request whose caller email matches
the target email and whose courseId is well-formed: if no enrollment record
matches the pair the call fails with NotFound and nothing is modified; if
one matches, that record is deleted, the call succeeds, and the course
receives seats plus one and enrollmentCount minus one as a best-effort step
— a missing course makes the course update a no-op, not an error.  (A
malformed courseId instead fails with InvalidInput before the enrollment
lookup.) -/
theorem unenroll_capacity_release (db : DB) (caller email cid : String)
    (hcaller : caller = email) (hid : isValidObjectId cid = true) :
    (findEnrollment db.enrollments email cid = none →
      unenroll db caller email cid = (OpResult.notFound, db))
  ∧ (findEnrollment db.enrollments email cid ≠ none →
      (unenroll db caller email cid).1 = OpResult.ok ∧
      (∀ l, eraseEnrollmentPair db.enrollments email cid = some l →
        (unenroll db caller email cid).2.enrollments = l) ∧
      (∀ c, findCourse db.courses cid = some c →
        findCourse (unenroll db caller email cid).2.courses cid = some (freeSeat c)) ∧
      (findCourse db.courses cid = none →
        (unenroll db caller email cid).2.courses = db.courses)) := by
  constructor
  · intro hnone
    have herase : eraseEnrollmentPair db.enrollments email cid = none :=
      (eraseEnrollmentPair_eq_none_iff db.enrollments email cid).mpr hnone
    simp [unenroll, hcaller, hid, herase]
  · intro hsome
    have herase : ∃ l, eraseEnrollmentPair db.enrollments email cid = some l := by
      cases he : eraseEnrollmentPair db.enrollments email cid with
      | none => exact absurd ((eraseEnrollmentPair_eq_none_iff db.enrollments email cid).mp he) hsome
      | some l => exact ⟨l, rfl⟩
    obtain ⟨l, hl⟩ := herase
    refine ⟨?_, ?_, ?_, ?_⟩
    · simp [unenroll, hcaller, hid, hl]
    · intro l2 hl2
      rw [hl] at hl2
      cases hl2
      simp [unenroll, hcaller, hid, hl]
    · intro c hc
      simp only [unenroll, hcaller, hid]
      simp [hl, findCourse_mapUpdate, hc]
    · intro hcnone
      simp [unenroll, hcaller, hid, hl, mapUpdate_of_findCourse_none db.courses cid freeSeat hcnone]

/-- Witness for the amended C8: on a store with a course at seats three and
enrollmentCount two and one matching enrollment, one unenroll succeeds and
the course reads back seats four, enrollmentCount one. -/
theorem unenroll_capacity_release_witness :
    (unenroll dbUnenroll ("u@x.com") "u@x.com" cidA).1 = OpResult.ok ∧
    findCourse (unenroll dbUnenroll ("u@x.com") "u@x.com" cidA).2.courses cidA =
      some { sampleCourse with seats := 4, enrollmentCount := 1 } := by
  have h := (unenroll_capacity_release dbUnenroll ("u@x.com") "u@x.com" cidA rfl
    (by decide)).2 (by decide)
  refine ⟨h.1, ?_⟩
  have h2 := h.2.2.1 sampleCourse (by decide)
  rw [h2]
  decide

/-- Claim C9: for a request with a verified identity, the resolved role is
the stored user record's role, absence of a user record yields the default
role student rather than an error, and only a storage failure yields
ServerError; on the best-effort path, a request with no valid credential
(missing or invalid token) is assigned the guest role and the request
proceeds rather than failing, whatever the store connection and lookup
outcome. -/
theorem role_resolution_defaults (e r : String) (hr : r ≠ "") :
    getUserRole (some e) (Except.ok (some { role := some r })) = RoleOutcome.ok r ∧
    getUserRole (some e) (Except.ok none) = RoleOutcome.ok ("student") ∧
    getUserRole (some e) (Except.error ()) = RoleOutcome.serverError ∧
    (∀ lk, getUserRole (some e) lk = RoleOutcome.serverError → lk = Except.error ()) ∧
    (∀ b lookup, getRoleIfAuthenticated AuthN.noToken b lookup = RoleOutcome.ok ("guest")) ∧
    (∀ b lookup, getRoleIfAuthenticated AuthN.badToken b lookup = RoleOutcome.ok ("guest")) := by
  refine ⟨?_, ?_, ?_, ?_, ?_, ?_⟩
  · simp [getUserRole, strOrDefault, hr]
  · simp [getUserRole, strOrDefault]
  · simp [getUserRole]
  · intro lk h
    cases lk with
    | error u => cases u; rfl
    | ok u => simp [getUserRole] at h
  · intro b lookup
    rfl
  · intro b lookup
    rfl

/-- Witness for C9: a stored instructor record resolves to instructor, an
absent record to student, a failing lookup to ServerError, and the
best-effort path with no token to guest. -/
theorem role_resolution_defaults_witness :
    getUserRole (some ("u@x.com")) (Except.ok (some { role := some ("instructor") })) =
      RoleOutcome.ok ("instructor") ∧
    getUserRole (some ("u@x.com")) (Except.ok none) = RoleOutcome.ok ("student") ∧
    getUserRole (some ("u@x.com")) (Except.error ()) = RoleOutcome.serverError ∧
    getRoleIfAuthenticated AuthN.noToken true (Except.ok none) = RoleOutcome.ok ("guest") := by
  have h := role_resolution_defaults ("u@x.com") "instructor" (by decide)
  exact ⟨h.1, h.2.1, h.2.2.1, h.2.2.2.2.1 true (Except.ok none)⟩

/-- Claim C10: the course-update route never changes a stored course's
document ids, instructorEmail, createdAt, enrollmentCount, or status,
whatever the request body contains — these keys are stripped from the
payload before the write — so in particular every successful update leaves
them as they were, and an instructor cannot transfer ownership, change
approval status, or alter the enrollment counter through it. -/
theorem updateCourse_preserves_protected_fields (db : DB) (caller id : String)
    (body : CourseUpdateBody) (x : String) :
    (updateCourse db caller id body).2.courses.map Prod.fst = db.courses.map Prod.fst ∧
    (findCourse (updateCourse db caller id body).2.courses x).map
        (fun c => c.instructorEmail) =
      (findCourse db.courses x).map (fun c => c.instructorEmail) ∧
    (findCourse (updateCourse db caller id body).2.courses x).map (fun c => c.createdAt) =
      (findCourse db.courses x).map (fun c => c.createdAt) ∧
    (findCourse (updateCourse db caller id body).2.courses x).map
        (fun c => c.enrollmentCount) =
      (findCourse db.courses x).map (fun c => c.enrollmentCount) ∧
    (findCourse (updateCourse db caller id body).2.courses x).map (fun c => c.status) =
      (findCourse db.courses x).map (fun c => c.status) := by
  refine ⟨?_, ?_, ?_, ?_, ?_⟩
  · unfold updateCourse
    repeat' split
    all_goals first
      | rfl
      | (exact mapUpdate_keys db.courses id _)
  all_goals
    unfold updateCourse
    repeat' split
    all_goals first
      | rfl
      | (exact fieldPreserved_mapUpdate db.courses id _ _
          (fun c => by simp [applyCourseUpdate]) x)

end CourseHub
